import Mathlib

/-!
# Access-Package Resource Finder — verification of `src/server.js`

A shallow embedding of the three JSON request handlers of the server
(`POST /api/search`, `POST /api/resolveGroup`, `POST /api/resolveApplication`)
and proofs of the specified properties of the matcher and the two resolvers.

The upstream Microsoft Graph directory service is modelled as explicit
arguments: the catalog fetch and the per-package detail fetch of the search
handler as a `Graph` record, and each resolver's filtered query as a function
from the user-supplied name to an `Except` result.  Every handler returns, next
to its HTTP response, the trace of upstream calls it issued, so that claims
about which upstream interactions happen (and in which cases none happen) are
statable.
-/

namespace AccessPackageFinder

/-- JavaScript truthiness test for an optional string field of a JSON request
body, as used by `if (!searchType || !searchValue)` and the resolvers'
missing-field checks: an absent field and the empty string are both falsy. -/
def jsFalsy : Option String → Bool
  | none => true
  | some s => s == ""

/-- `x || 'N/A'` on an optional string, as JavaScript evaluates it: an absent
or empty string falls back to the placeholder `"N/A"`. -/
def orNA : Option String → String
  | none => "N/A"
  | some s => if s == "" then "N/A" else s

/-- The `scope` sub-object of a resource role scope: the resource instance
with its origin identifier, origin system tag and display name. -/
structure Scope where
  originId : String
  originSystem : String
  displayName : Option String
deriving DecidableEq, Repr

/-- The `role` sub-object of a resource role scope. -/
structure Role where
  displayName : Option String
deriving DecidableEq, Repr

/-- One entry of a package's `resourceRoleScopes` collection; either
sub-object may be absent in upstream data. -/
structure ResourceRoleScope where
  scope : Option Scope
  role : Option Role
deriving DecidableEq, Repr

/-- The minimal projection (`$select=id,displayName`) returned by the
top-level catalog fetch of access packages. -/
structure PkgSummary where
  id : String
  displayName : String
deriving DecidableEq, Repr

/-- The full record returned by the per-package detail fetch with
`$expand=resourceRoleScopes($expand=role,scope)`; the collection may be
absent (`none`) or empty. -/
structure PackageDetails where
  id : String
  displayName : String
  resourceRoleScopes : Option (List ResourceRoleScope)
deriving DecidableEq, Repr

/-- One element of the `results` array of a successful search response. -/
structure MatchRecord where
  accessPackageName : String
  accessPackageId : String
  resourceName : String
  resourceType : String
  resourceId : String
  roleName : String
deriving DecidableEq, Repr

/-- The JSON body of a `POST /api/search` request; either field may be
absent. -/
structure SearchBody where
  searchType : Option String
  searchValue : Option String
deriving DecidableEq, Repr

/-- One upstream Microsoft Graph call, recorded in the order the handler
issues it. -/
inductive GraphCall where
  | catalogFetch : GraphCall
  | packageFetch (pkgId : String) : GraphCall
  | groupsFetch (filterValue : String) : GraphCall
  | servicePrincipalsFetch (filterValue : String) : GraphCall
deriving DecidableEq, Repr

/-- The upstream directory service as the search handler sees it: the
catalog fetch and the per-package detail fetch, each of which may fail with
an error message. -/
structure Graph where
  accessPackages : Except String (List PkgSummary)
  packageDetails : String → Except String PackageDetails

/-- The possible HTTP responses of `POST /api/search`. -/
inductive SearchResponse where
  | badRequest (error : String) : SearchResponse
  | ok (results : List MatchRecord) (searchType searchValue : String) : SearchResponse
  | serverError (error details : String) : SearchResponse
deriving DecidableEq, Repr

/-- HTTP status code of a search response. -/
def SearchResponse.status : SearchResponse → Nat
  | .badRequest _ => 400
  | .ok _ _ _ => 200
  | .serverError _ _ => 500

/-- The `switch (searchType)` match predicate of the search handler, applied
to one resource role scope's `scope` sub-object: each recognized search type
requires the scope to be present, its `originId` to equal `searchValue` and
its `originSystem` to equal the corresponding tag; any other search type
falls through the `default` case and never matches. -/
def isMatch (searchType searchValue : String) (scope : Option Scope) : Bool :=
  if searchType = "application" then
    match scope with
    | some s => s.originId == searchValue && s.originSystem == "AadApplication"
    | none => false
  else if searchType = "group" then
    match scope with
    | some s => s.originId == searchValue && s.originSystem == "AadGroup"
    | none => false
  else if searchType = "sharepoint" then
    match scope with
    | some s => s.originId == searchValue && s.originSystem == "SharePointOnline"
    | none => false
  else
    false

/-- The record pushed onto `results` for a matching resource role scope. -/
def mkRecord (pd : PackageDetails) (rs : ResourceRoleScope) (s : Scope) : MatchRecord :=
  { accessPackageName := pd.displayName
    accessPackageId := pd.id
    resourceName := orNA s.displayName
    resourceType := s.originSystem
    resourceId := s.originId
    roleName := orNA (rs.role.bind Role.displayName) }

/-- Processing of one resource role scope inside the search loop: emit a
record exactly when the match predicate holds (in which case the scope is
necessarily present). -/
def scopeRecord (searchType searchValue : String) (pd : PackageDetails)
    (rs : ResourceRoleScope) : Option MatchRecord :=
  if isMatch searchType searchValue rs.scope then
    rs.scope.map (fun s => mkRecord pd rs s)
  else
    none

/-- Processing of one fetched package: skip it when its resource role scope
collection is absent or empty, otherwise scan the collection in order. -/
def processPackage (searchType searchValue : String) (pd : PackageDetails) :
    List MatchRecord :=
  match pd.resourceRoleScopes with
  | none => []
  | some rss =>
      if rss.length = 0 then []
      else rss.filterMap (scopeRecord searchType searchValue pd)

/-- One iteration of the per-package loop: fetch the package's details,
append its records on success, and on failure log and skip it, continuing
with the next package either way. -/
def searchStep (g : Graph) (searchType searchValue : String)
    (acc : List MatchRecord × List GraphCall) (pkg : PkgSummary) :
    List MatchRecord × List GraphCall :=
  match g.packageDetails pkg.id with
  | .error _ => (acc.1, acc.2 ++ [GraphCall.packageFetch pkg.id])
  | .ok pd => (acc.1 ++ processPackage searchType searchValue pd,
               acc.2 ++ [GraphCall.packageFetch pkg.id])

/-- The `POST /api/search` handler: validate the body, fetch the catalog
(fatal on failure), run the per-package loop, and echo `searchType` and
`searchValue` back alongside the accumulated results. -/
def search (body : SearchBody) (g : Graph) : SearchResponse × List GraphCall :=
  if jsFalsy body.searchType || jsFalsy body.searchValue then
    (SearchResponse.badRequest "Missing searchType or searchValue", [])
  else
    match g.accessPackages with
    | .error e =>
        (SearchResponse.serverError "Failed to search access packages" e,
         [GraphCall.catalogFetch])
    | .ok pkgs =>
        let st := body.searchType.getD ""
        let sv := body.searchValue.getD ""
        let r := pkgs.foldl (searchStep g st sv) ([], [GraphCall.catalogFetch])
        (SearchResponse.ok r.1 st sv, r.2)

/-- The contribution of a single catalog entry to the search results: empty
when its detail fetch fails, otherwise the records of its scan. -/
def pkgContrib (g : Graph) (searchType searchValue : String)
    (pkg : PkgSummary) : List MatchRecord :=
  match g.packageDetails pkg.id with
  | .error _ => []
  | .ok pd => processPackage searchType searchValue pd

/-- A directory group as returned by the `/groups` query
(`$select=id,displayName`). -/
structure Group where
  id : String
  displayName : String
deriving DecidableEq, Repr

/-- The possible HTTP responses of `POST /api/resolveGroup`. -/
inductive ResolveGroupResponse where
  | badRequest (error : String) : ResolveGroupResponse
  | notFound (error : String) : ResolveGroupResponse
  | ok (groupId displayName : String) : ResolveGroupResponse
  | serverError (error details : String) : ResolveGroupResponse
deriving DecidableEq, Repr

/-- HTTP status code of a resolveGroup response. -/
def ResolveGroupResponse.status : ResolveGroupResponse → Nat
  | .badRequest _ => 400
  | .notFound _ => 404
  | .ok _ _ => 200
  | .serverError _ _ => 500

/-- The `POST /api/resolveGroup` handler: validate the body, query groups
filtered by exact display name, return 404 on zero results and otherwise the
id and display name of the first result. -/
def resolveGroup (groupName : Option String)
    (groupsQuery : String → Except String (List Group)) :
    ResolveGroupResponse × List GraphCall :=
  if jsFalsy groupName then
    (ResolveGroupResponse.badRequest "Missing groupName", [])
  else
    let name := groupName.getD ""
    match groupsQuery name with
    | .error e =>
        (ResolveGroupResponse.serverError "Failed to resolve group" e,
         [GraphCall.groupsFetch name])
    | .ok gs =>
        match gs with
        | [] => (ResolveGroupResponse.notFound "Group not found",
                 [GraphCall.groupsFetch name])
        | g :: _ => (ResolveGroupResponse.ok g.id g.displayName,
                     [GraphCall.groupsFetch name])

/-- A service principal as returned by the `/servicePrincipals` query
(`$select=id,displayName,appId`). -/
structure ServicePrincipal where
  id : String
  displayName : String
  appId : String
deriving DecidableEq, Repr

/-- The projection of a service principal returned to the caller. -/
structure ApplicationRef where
  objectId : String
  displayName : String
  appId : String
deriving DecidableEq, Repr

/-- The `map` applied to each returned service principal. -/
def toApplicationRef (sp : ServicePrincipal) : ApplicationRef :=
  { objectId := sp.id, displayName := sp.displayName, appId := sp.appId }

/-- The possible HTTP responses of `POST /api/resolveApplication`. -/
inductive ResolveApplicationResponse where
  | badRequest (error : String) : ResolveApplicationResponse
  | notFound (error : String) : ResolveApplicationResponse
  | single (app : ApplicationRef) : ResolveApplicationResponse
  | multiple (applications : List ApplicationRef) : ResolveApplicationResponse
  | serverError (error details : String) : ResolveApplicationResponse
deriving DecidableEq, Repr

/-- HTTP status code of a resolveApplication response. -/
def ResolveApplicationResponse.status : ResolveApplicationResponse → Nat
  | .badRequest _ => 400
  | .notFound _ => 404
  | .single _ => 200
  | .multiple _ => 200
  | .serverError _ _ => 500

/-- The `POST /api/resolveApplication` handler: validate the body, query
service principals whose display name starts with the supplied text, return
404 on zero results, the single mapped record when exactly one is returned,
and a distinguished `multiple` result with the whole mapped list otherwise. -/
def resolveApplication (applicationName : Option String)
    (servicePrincipalsQuery : String → Except String (List ServicePrincipal)) :
    ResolveApplicationResponse × List GraphCall :=
  if jsFalsy applicationName then
    (ResolveApplicationResponse.badRequest "Missing applicationName", [])
  else
    let name := applicationName.getD ""
    match servicePrincipalsQuery name with
    | .error e =>
        (ResolveApplicationResponse.serverError "Failed to resolve application" e,
         [GraphCall.servicePrincipalsFetch name])
    | .ok sps =>
        match sps with
        | [] => (ResolveApplicationResponse.notFound "Application not found",
                 [GraphCall.servicePrincipalsFetch name])
        | sp :: rest =>
            match rest with
            | [] => (ResolveApplicationResponse.single (toApplicationRef sp),
                     [GraphCall.servicePrincipalsFetch name])
            | _ => (ResolveApplicationResponse.multiple
                      ((sp :: rest).map toApplicationRef),
                    [GraphCall.servicePrincipalsFetch name])

/-- The origin-system tag the specification maps each search type to;
`none` for a search type outside the closed set. -/
def mappedOriginSystem (searchType : String) : Option String :=
  if searchType = "application" then some "AadApplication"
  else if searchType = "group" then some "AadGroup"
  else if searchType = "sharepoint" then some "SharePointOnline"
  else none

/-! ### Concrete fixtures used to instantiate the theorems -/

/-- Fixture: a group scope with origin id `g1`. -/
def salesScope : Scope :=
  { originId := "g1", originSystem := "AadGroup", displayName := some "Sales Group" }

/-- Fixture: the `Member` role. -/
def memberRole : Role := { displayName := some "Member" }

/-- Fixture: the resource role scope pairing `salesScope` with `memberRole`. -/
def salesRoleScope : ResourceRoleScope :=
  { scope := some salesScope, role := some memberRole }

/-- Fixture: first catalog entry. -/
def pkg1Summary : PkgSummary := { id := "p1", displayName := "Pkg1" }

/-- Fixture: second catalog entry. -/
def pkg2Summary : PkgSummary := { id := "p2", displayName := "Pkg2" }

/-- Fixture: detail record of `p2`, holding the one matching group scope. -/
def pkg2Details : PackageDetails :=
  { id := "p2", displayName := "Pkg2", resourceRoleScopes := some [salesRoleScope] }

/-- Fixture: detail record of `p3`, with an empty scope collection. -/
def pkg3Details : PackageDetails :=
  { id := "p3", displayName := "Pkg3", resourceRoleScopes := some [] }

/-- Fixture: a valid search body asking for group `g1`. -/
def groupSearchBody : SearchBody :=
  { searchType := some "group", searchValue := some "g1" }

/-- Fixture: a valid body whose search type is outside the recognized set. -/
def unknownSearchBody : SearchBody :=
  { searchType := some "user", searchValue := some "x" }

/-- Fixture: the empty request body `{}`. -/
def emptySearchBody : SearchBody :=
  { searchType := none, searchValue := none }

/-- Fixture directory: two packages, `p1`'s detail fetch fails, `p2`'s
succeeds with one matching group scope. -/
def gFail : Graph :=
  { accessPackages := Except.ok [pkg1Summary, pkg2Summary],
    packageDetails := fun i =>
      if i = "p2" then Except.ok pkg2Details else Except.error "boom" }

/-- Fixture directory: the catalog fetch itself fails. -/
def gDown : Graph :=
  { accessPackages := Except.error "service unavailable",
    packageDetails := fun _ => Except.error "service unavailable" }

/-- Fixture directory: one package whose detail record has no scopes. -/
def gEmpty : Graph :=
  { accessPackages := Except.ok [{ id := "p3", displayName := "Pkg3" }],
    packageDetails := fun _ => Except.ok pkg3Details }

/-- Fixture: the one record the group search over `gFail` emits. -/
def salesRecord : MatchRecord :=
  { accessPackageName := "Pkg2", accessPackageId := "p2",
    resourceName := "Sales Group", resourceType := "AadGroup",
    resourceId := "g1", roleName := "Member" }

/-- Fixture groups query: one group named `Team Alpha`. -/
def qGroupsOne : String → Except String (List Group) :=
  fun _ => Except.ok [{ id := "gid-1", displayName := "Team Alpha" }]

/-- Fixture groups query: no groups. -/
def qGroupsNone : String → Except String (List Group) :=
  fun _ => Except.ok []

/-- Fixture service principal: `Contoso App`. -/
def spApp : ServicePrincipal :=
  { id := "sp1", displayName := "Contoso App", appId := "app-id-1" }

/-- Fixture service principal: `Contoso Portal`. -/
def spPortal : ServicePrincipal :=
  { id := "sp2", displayName := "Contoso Portal", appId := "app-id-2" }

/-- Fixture service principals query: two candidates. -/
def qSPsTwo : String → Except String (List ServicePrincipal) :=
  fun _ => Except.ok [spApp, spPortal]

/-- Fixture service principals query: no candidates. -/
def qSPsNone : String → Except String (List ServicePrincipal) :=
  fun _ => Except.ok []

/-! ## Helper lemmas -/

/-- One loop iteration appends the package's contribution to the records and
its detail fetch to the call trace, whether the fetch succeeds or fails. -/
theorem searchStep_eq (g : Graph) (st sv : String)
    (acc : List MatchRecord × List GraphCall) (pkg : PkgSummary) :
    searchStep g st sv acc pkg =
      (acc.1 ++ pkgContrib g st sv pkg,
       acc.2 ++ [GraphCall.packageFetch pkg.id]) := by
  unfold searchStep pkgContrib
  cases g.packageDetails pkg.id <;> simp

/-- Unfolding the per-package loop: starting from any accumulator, the loop
appends each package's contribution and records one detail fetch per catalog
entry, in catalog order. -/
theorem foldl_searchStep (g : Graph) (st sv : String) (pkgs : List PkgSummary)
    (acc : List MatchRecord) (calls : List GraphCall) :
    pkgs.foldl (searchStep g st sv) (acc, calls) =
      (acc ++ pkgs.flatMap (pkgContrib g st sv),
       calls ++ pkgs.map (fun p => GraphCall.packageFetch p.id)) := by
  induction pkgs generalizing acc calls with
  | nil => simp
  | cons p ps ih =>
      rw [List.foldl_cons, searchStep_eq, ih]
      simp

/-- Characterization of a successful search: with a valid body and a
successful catalog fetch, the handler returns 200 with the concatenated
per-package contributions and issues the catalog fetch followed by one
detail fetch per catalog entry. -/
theorem search_ok (body : SearchBody) (g : Graph) (pkgs : List PkgSummary)
    (hbody : (jsFalsy body.searchType || jsFalsy body.searchValue) = false)
    (hc : g.accessPackages = Except.ok pkgs) :
    search body g =
      (SearchResponse.ok
        (pkgs.flatMap
          (pkgContrib g (body.searchType.getD "") (body.searchValue.getD "")))
        (body.searchType.getD "") (body.searchValue.getD ""),
       GraphCall.catalogFetch ::
         pkgs.map (fun p => GraphCall.packageFetch p.id)) := by
  unfold search
  rw [hbody, hc]
  simp [foldl_searchStep]

/-- A search type outside the recognized set matches no scope at all. -/
theorem isMatch_unknown (st sv : String) (sc : Option Scope)
    (h : mappedOriginSystem st = none) : isMatch st sv sc = false := by
  unfold mappedOriginSystem at h
  unfold isMatch
  split_ifs at h ⊢
  simp_all

/-- For a recognized search type, the match predicate on a present scope is
exactly the conjunction of identifier equality and origin-system equality
with the mapped tag. -/
theorem isMatch_some_iff (st sv m : String) (s : Scope)
    (h : mappedOriginSystem st = some m) :
    isMatch st sv (some s) = true ↔ s.originId = sv ∧ s.originSystem = m := by
  unfold mappedOriginSystem at h
  unfold isMatch
  split_ifs at h ⊢ <;>
    simp_all [Bool.and_eq_true, beq_iff_eq]

/-- A matching scope forces the search type to be recognized and the scope's
origin system to be its mapped tag. -/
theorem isMatch_some_origin (st sv : String) (s : Scope)
    (h : isMatch st sv (some s) = true) :
    s.originId = sv ∧ mappedOriginSystem st = some s.originSystem := by
  cases hm : mappedOriginSystem st with
  | none => rw [isMatch_unknown st sv (some s) hm] at h; cases h
  | some m =>
      obtain ⟨h1, h2⟩ := (isMatch_some_iff st sv m s hm).mp h
      exact ⟨h1, by simp [hm, h2]⟩

/-- A record emitted for one resource role scope comes from a present,
matching scope, and carries that scope's identifier and origin system. -/
theorem scopeRecord_spec (st sv : String) (pd : PackageDetails)
    (rs : ResourceRoleScope) (r : MatchRecord)
    (h : scopeRecord st sv pd rs = some r) :
    ∃ s, rs.scope = some s ∧ isMatch st sv (some s) = true ∧
      r.resourceId = s.originId ∧ r.resourceType = s.originSystem := by
  unfold scopeRecord at h
  split_ifs at h with hm
  cases hs : rs.scope with
  | none => rw [hs] at h; cases h
  | some s =>
      rw [hs] at h hm
      injection h with h
      cases h
      exact ⟨s, rfl, hm, rfl, rfl⟩

/-- Every record of a package scan satisfies the per-scope emission
property. -/
theorem processPackage_mem (st sv : String) (pd : PackageDetails)
    (r : MatchRecord) (h : r ∈ processPackage st sv pd) :
    ∃ rs ∈ pd.resourceRoleScopes.getD [], scopeRecord st sv pd rs = some r := by
  cases hrr : pd.resourceRoleScopes with
  | none => simp [processPackage, hrr] at h
  | some rss =>
      simp only [processPackage, hrr] at h
      split_ifs at h with hl
      · simp at h
      · obtain ⟨rs, hmem, hrs⟩ := List.mem_filterMap.mp h
        exact ⟨rs, by simpa [hrr] using hmem, hrs⟩

/-- A package whose scan is run with an unrecognized search type emits no
records. -/
theorem processPackage_unknown (st sv : String) (pd : PackageDetails)
    (h : mappedOriginSystem st = none) : processPackage st sv pd = [] := by
  cases hrr : pd.resourceRoleScopes with
  | none => simp [processPackage, hrr]
  | some rss =>
      simp only [processPackage, hrr]
      split_ifs with hl
      · rfl
      · rw [List.filterMap_eq_nil_iff]
        intro rs _
        unfold scopeRecord
        rw [isMatch_unknown st sv rs.scope h]
        simp

/-! ## Claims -/

/-- C1: For every resource-role-scope examined by search, the scope matches
if and only if `scope.originId` equals the search value exactly and
`scope.originSystem` equals the tag mapped from the search type
(`application → AadApplication`, `group → AadGroup`,
`sharepoint → SharePointOnline`); a scope whose origin system is outside
this closed set never matches (the predicate is total, so no error is
raised). -/
theorem scope_match_exact (searchType searchValue : String) (s : Scope) :
    (∀ m, mappedOriginSystem searchType = some m →
      (isMatch searchType searchValue (some s) = true ↔
        s.originId = searchValue ∧ s.originSystem = m)) ∧
    (s.originSystem ∉ ["AadApplication", "AadGroup", "SharePointOnline"] →
      isMatch searchType searchValue (some s) = false) := by
  constructor
  · intro m hm
    exact isMatch_some_iff searchType searchValue m s hm
  · intro hout
    cases hm : isMatch searchType searchValue (some s) with
    | false => rfl
    | true =>
        obtain ⟨-, h2⟩ := isMatch_some_origin searchType searchValue s hm
        unfold mappedOriginSystem at h2
        split_ifs at h2 with hA hG hS
        · injection h2 with h3
          exact absurd (by rw [← h3]; simp) hout
        · injection h2 with h3
          exact absurd (by rw [← h3]; simp) hout
        · injection h2 with h3
          exact absurd (by rw [← h3]; simp) hout

/-- Witness for C1 at a concrete scope: with search type `application`, a
scope whose origin identifier is the search value and whose origin system is
`AadApplication` matches. -/
theorem scope_match_exact_witness :
    isMatch "application" "app-1"
      (some { originId := "app-1", originSystem := "AadApplication",
              displayName := none }) = true :=
  ((scope_match_exact "application" "app-1"
      { originId := "app-1", originSystem := "AadApplication",
        displayName := none }).1 "AadApplication" rfl).mpr ⟨rfl, rfl⟩

/-- C2: if the detail fetch fails for some package P, the search still
returns HTTP 200, and every record derived from any other package whose
fetch succeeds is present in the result list; a single package failure never
aborts the whole search. -/
theorem search_package_failure_isolation (body : SearchBody) (g : Graph)
    (pkgs : List PkgSummary) (P : PkgSummary) (e : String)
    (hbody : (jsFalsy body.searchType || jsFalsy body.searchValue) = false)
    (hc : g.accessPackages = Except.ok pkgs)
    (hP : P ∈ pkgs) (hfail : g.packageDetails P.id = Except.error e) :
    ∃ rs, (search body g).1 =
        SearchResponse.ok rs (body.searchType.getD "") (body.searchValue.getD "") ∧
      (search body g).1.status = 200 ∧
      ∀ Q ∈ pkgs, ∀ pd, g.packageDetails Q.id = Except.ok pd →
        ∀ r ∈ processPackage (body.searchType.getD "") (body.searchValue.getD "") pd,
          r ∈ rs := by
  refine ⟨pkgs.flatMap
      (pkgContrib g (body.searchType.getD "") (body.searchValue.getD "")),
    ?_, ?_, ?_⟩
  · rw [search_ok body g pkgs hbody hc]
  · rw [search_ok body g pkgs hbody hc]; rfl
  · intro Q hQ pd hpd r hr
    exact List.mem_flatMap.mpr ⟨Q, hQ, by simpa [pkgContrib, hpd] using hr⟩

/-- Witness for C2: in the fixture directory where package `p1`'s detail
fetch fails, the search still succeeds and every record of package `p2`'s
scan is in the result list. -/
theorem search_package_failure_isolation_witness :
    ∃ rs, (search groupSearchBody gFail).1 =
        SearchResponse.ok rs (groupSearchBody.searchType.getD "")
          (groupSearchBody.searchValue.getD "") ∧
      (search groupSearchBody gFail).1.status = 200 ∧
      ∀ Q ∈ [pkg1Summary, pkg2Summary], ∀ pd,
        gFail.packageDetails Q.id = Except.ok pd →
        ∀ r ∈ processPackage (groupSearchBody.searchType.getD "")
            (groupSearchBody.searchValue.getD "") pd,
          r ∈ rs :=
  search_package_failure_isolation groupSearchBody gFail
    [pkg1Summary, pkg2Summary] pkg1Summary "boom"
    (by decide) rfl (by simp) (by simp [gFail, pkg1Summary])

/-- C5: if the top-level catalog fetch fails, the whole search request fails
with a 500 response whose body carries the generic message and the upstream
error detail string; no results are returned, and the catalog fetch is the
only upstream call made. -/
theorem search_catalog_failure_fatal (body : SearchBody) (g : Graph) (e : String)
    (hbody : (jsFalsy body.searchType || jsFalsy body.searchValue) = false)
    (hc : g.accessPackages = Except.error e) :
    search body g =
      (SearchResponse.serverError "Failed to search access packages" e,
       [GraphCall.catalogFetch]) ∧
    (search body g).1.status = 500 := by
  have h1 : search body g =
      (SearchResponse.serverError "Failed to search access packages" e,
       [GraphCall.catalogFetch]) := by
    unfold search
    rw [hbody, hc]
    simp
  exact ⟨h1, by simp [h1, SearchResponse.status]⟩

/-- Witness for C5: the fixture directory whose catalog fetch fails. -/
theorem search_catalog_failure_fatal_witness :
    search groupSearchBody gDown =
      (SearchResponse.serverError "Failed to search access packages"
        "service unavailable",
       [GraphCall.catalogFetch]) ∧
    (search groupSearchBody gDown).1.status = 500 :=
  search_catalog_failure_fatal groupSearchBody gDown "service unavailable"
    (by decide) rfl

/-- C6: a search request whose body lacks `searchType` or `searchValue` gets
a 400 response and the handler performs no upstream directory call at all
(its call trace is empty), so the validation check precedes any upstream
interaction. -/
theorem search_validation_no_upstream (body : SearchBody) (g : Graph)
    (h : (jsFalsy body.searchType || jsFalsy body.searchValue) = true) :
    search body g =
      (SearchResponse.badRequest "Missing searchType or searchValue", []) ∧
    (search body g).1.status = 400 := by
  have h1 : search body g =
      (SearchResponse.badRequest "Missing searchType or searchValue", []) := by
    unfold search
    rw [h]
    simp
  exact ⟨h1, by simp [h1, SearchResponse.status]⟩

/-- Witness for C6: the empty body `{}` against the fixture directory. -/
theorem search_validation_no_upstream_witness :
    search emptySearchBody gFail =
      (SearchResponse.badRequest "Missing searchType or searchValue", []) ∧
    (search emptySearchBody gFail).1.status = 400 :=
  search_validation_no_upstream emptySearchBody gFail (by decide)

/-- C7: for every search type outside {application, group, sharepoint} and
every search value, the search returns an empty result list and does not
error, whatever packages the upstream catalog contains and however the
per-package fetches behave. -/
theorem search_unknown_type_empty (body : SearchBody) (g : Graph)
    (pkgs : List PkgSummary)
    (hbody : (jsFalsy body.searchType || jsFalsy body.searchValue) = false)
    (hst : mappedOriginSystem (body.searchType.getD "") = none)
    (hc : g.accessPackages = Except.ok pkgs) :
    (search body g).1 =
      SearchResponse.ok [] (body.searchType.getD "") (body.searchValue.getD "") := by
  have h2 : pkgs.flatMap
      (pkgContrib g (body.searchType.getD "") (body.searchValue.getD "")) = [] := by
    rw [List.flatMap_eq_nil_iff]
    intro pkg _
    unfold pkgContrib
    cases hpd : g.packageDetails pkg.id with
    | error e => rfl
    | ok pd => exact processPackage_unknown _ _ pd hst
  rw [search_ok body g pkgs hbody hc, h2]

/-- Witness for C7: search type `user` against the fixture directory with a
matching group scope present. -/
theorem search_unknown_type_empty_witness :
    (search unknownSearchBody gFail).1 =
      SearchResponse.ok [] (unknownSearchBody.searchType.getD "")
        (unknownSearchBody.searchValue.getD "") :=
  search_unknown_type_empty unknownSearchBody gFail
    [pkg1Summary, pkg2Summary] (by decide) (by decide) rfl

/-- C8: a package whose fetched details carry an absent (`none`) or empty
scope collection contributes zero records to the search, whose result list
is exactly the concatenation of the per-package contributions, for every
search type and search value. -/
theorem search_empty_scopes_skip (body : SearchBody) (g : Graph)
    (pkgs : List PkgSummary) (pkg : PkgSummary) (pd : PackageDetails)
    (hbody : (jsFalsy body.searchType || jsFalsy body.searchValue) = false)
    (hc : g.accessPackages = Except.ok pkgs)
    (hpd : g.packageDetails pkg.id = Except.ok pd)
    (hempty : pd.resourceRoleScopes = none ∨ pd.resourceRoleScopes = some []) :
    pkgContrib g (body.searchType.getD "") (body.searchValue.getD "") pkg = [] ∧
    (search body g).1 =
      SearchResponse.ok
        (pkgs.flatMap
          (pkgContrib g (body.searchType.getD "") (body.searchValue.getD "")))
        (body.searchType.getD "") (body.searchValue.getD "") := by
  constructor
  · unfold pkgContrib
    rw [hpd]
    cases hempty with
    | inl h => simp [processPackage, h]
    | inr h => simp [processPackage, h]
  · rw [search_ok body g pkgs hbody hc]

/-- Witness for C8: the fixture package `p3` with an empty scope collection
contributes nothing to a group search. -/
theorem search_empty_scopes_skip_witness :
    pkgContrib gEmpty (groupSearchBody.searchType.getD "")
      (groupSearchBody.searchValue.getD "") { id := "p3", displayName := "Pkg3" } = [] ∧
    (search groupSearchBody gEmpty).1 =
      SearchResponse.ok
        ([{ id := "p3", displayName := "Pkg3" }].flatMap
          (pkgContrib gEmpty (groupSearchBody.searchType.getD "")
            (groupSearchBody.searchValue.getD "")))
        (groupSearchBody.searchType.getD "") (groupSearchBody.searchValue.getD "") :=
  search_empty_scopes_skip groupSearchBody gEmpty
    [{ id := "p3", displayName := "Pkg3" }] { id := "p3", displayName := "Pkg3" }
    pkg3Details (by decide) rfl rfl (Or.inr rfl)

/-- C3: with a present application name, when the filtered service principal
query yields zero entries the resolver responds 404 not-found; with exactly
one entry it responds with the single mapped {objectId, displayName, appId}
record; with two or more it responds with the distinguished `multiple`
result carrying the full mapped candidate list. -/
theorem resolveApplication_cardinality (applicationName : String)
    (q : String → Except String (List ServicePrincipal))
    (sps : List ServicePrincipal)
    (hname : applicationName ≠ "")
    (hq : q applicationName = Except.ok sps) :
    (sps = [] →
      (resolveApplication (some applicationName) q).1 =
          ResolveApplicationResponse.notFound "Application not found" ∧
        (resolveApplication (some applicationName) q).1.status = 404) ∧
    (∀ sp, sps = [sp] →
      (resolveApplication (some applicationName) q).1 =
        ResolveApplicationResponse.single (toApplicationRef sp)) ∧
    (2 ≤ sps.length →
      (resolveApplication (some applicationName) q).1 =
        ResolveApplicationResponse.multiple (sps.map toApplicationRef)) := by
  have hfalsy : jsFalsy (some applicationName) = false := by
    simp [jsFalsy, hname]
  refine ⟨?_, ?_, ?_⟩
  · intro h
    subst h
    simp [resolveApplication, hfalsy, hq, ResolveApplicationResponse.status]
  · intro sp h
    subst h
    simp [resolveApplication, hfalsy, hq]
  · intro h
    cases sps with
    | nil => simp at h
    | cons sp1 rest =>
        cases rest with
        | nil => simp at h
        | cons sp2 rest2 => simp [resolveApplication, hfalsy, hq]

/-- Witness for C3: `resolveApplication("Contoso")` against the fixture with
two service principals named `Contoso App` and `Contoso Portal` returns the
distinguished `multiple` result with both candidates. -/
theorem resolveApplication_cardinality_witness :
    (resolveApplication (some "Contoso") qSPsTwo).1 =
      ResolveApplicationResponse.multiple
        [toApplicationRef spApp, toApplicationRef spPortal] := by
  have h := (resolveApplication_cardinality "Contoso" qSPsTwo [spApp, spPortal]
    (by decide) rfl).2.2 (by decide)
  simpa using h

/-- C4: with a present group name, when the exact-display-name query yields
zero groups the resolver responds 404 not-found; when one or more groups are
returned it responds with the id and display name of only the first result
in upstream order, whatever the remaining entries are. -/
theorem resolveGroup_first_result (groupName : String)
    (q : String → Except String (List Group)) (gs : List Group)
    (hname : groupName ≠ "")
    (hq : q groupName = Except.ok gs) :
    (gs = [] →
      (resolveGroup (some groupName) q).1 =
          ResolveGroupResponse.notFound "Group not found" ∧
        (resolveGroup (some groupName) q).1.status = 404) ∧
    (∀ g rest, gs = g :: rest →
      (resolveGroup (some groupName) q).1 =
        ResolveGroupResponse.ok g.id g.displayName) := by
  have hfalsy : jsFalsy (some groupName) = false := by simp [jsFalsy, hname]
  refine ⟨?_, ?_⟩
  · intro h
    subst h
    simp [resolveGroup, hfalsy, hq, ResolveGroupResponse.status]
  · intro g rest h
    subst h
    simp [resolveGroup, hfalsy, hq]

/-- Witness for C4: `resolveGroup("Team Alpha")` against the fixture with
exactly one group of that name returns its id and display name. -/
theorem resolveGroup_first_result_witness :
    (resolveGroup (some "Team Alpha") qGroupsOne).1 =
      ResolveGroupResponse.ok "gid-1" "Team Alpha" := by
  have h := (resolveGroup_first_result "Team Alpha" qGroupsOne
    [{ id := "gid-1", displayName := "Team Alpha" }] (by decide) rfl).2
    { id := "gid-1", displayName := "Team Alpha" } [] rfl
  simpa using h

/-- C9 counterexample: against a directory with no group named `Team Alpha`,
the group resolver does return 404 — but only after issuing its groups
query, so the call trace of the not-found response is nonempty; the claim
that a NotFound response is produced without an upstream call having
occurred is false. -/
theorem resolver_notFound_upstream_counterexample :
    resolveGroup (some "Team Alpha") qGroupsNone =
      (ResolveGroupResponse.notFound "Group not found",
       [GraphCall.groupsFetch "Team Alpha"]) ∧
    (resolveGroup (some "Team Alpha") qGroupsNone).2 ≠ [] := by
  exact ⟨by decide, by decide⟩

/-- C9 amended: validation errors are detected before any upstream call and
returned immediately with an empty call trace; a NotFound response from
either resolver is returned immediately after exactly one upstream call,
the resolver's single filtered directory query. -/
theorem resolver_error_propagation (groupName applicationName : String)
    (qg : String → Except String (List Group))
    (qa : String → Except String (List ServicePrincipal))
    (hgname : groupName ≠ "") (haname : applicationName ≠ "")
    (hqg : qg groupName = Except.ok [])
    (hqa : qa applicationName = Except.ok []) :
    resolveGroup none qg =
      (ResolveGroupResponse.badRequest "Missing groupName", []) ∧
    resolveApplication none qa =
      (ResolveApplicationResponse.badRequest "Missing applicationName", []) ∧
    resolveGroup (some groupName) qg =
      (ResolveGroupResponse.notFound "Group not found",
       [GraphCall.groupsFetch groupName]) ∧
    resolveApplication (some applicationName) qa =
      (ResolveApplicationResponse.notFound "Application not found",
       [GraphCall.servicePrincipalsFetch applicationName]) := by
  have hg : jsFalsy (some groupName) = false := by simp [jsFalsy, hgname]
  have ha : jsFalsy (some applicationName) = false := by simp [jsFalsy, haname]
  refine ⟨rfl, rfl, ?_, ?_⟩
  · simp [resolveGroup, hg, hqg]
  · simp [resolveApplication, ha, hqa]

/-- Witness for the amended C9 at concrete names and fixture queries. -/
theorem resolver_error_propagation_witness :
    resolveGroup none qGroupsNone =
      (ResolveGroupResponse.badRequest "Missing groupName", []) ∧
    resolveApplication none qSPsNone =
      (ResolveApplicationResponse.badRequest "Missing applicationName", []) ∧
    resolveGroup (some "Team Alpha") qGroupsNone =
      (ResolveGroupResponse.notFound "Group not found",
       [GraphCall.groupsFetch "Team Alpha"]) ∧
    resolveApplication (some "Contoso") qSPsNone =
      (ResolveApplicationResponse.notFound "Application not found",
       [GraphCall.servicePrincipalsFetch "Contoso"]) :=
  resolver_error_propagation "Team Alpha" "Contoso" qGroupsNone qSPsNone
    (by decide) (by decide) rfl rfl

/-- C10: every record in a successful search's result list carries
`resourceId` equal to the request's search value and `resourceType` equal to
the origin-system tag mapped from the request's search type; and a resource
role scope whose `scope` is null never matches (the predicate on a null
scope is false, totally, so it never causes an error either). -/
theorem search_output_invariant (body : SearchBody) (g : Graph)
    (pkgs : List PkgSummary) (rs : List MatchRecord) (r : MatchRecord)
    (hbody : (jsFalsy body.searchType || jsFalsy body.searchValue) = false)
    (hc : g.accessPackages = Except.ok pkgs)
    (hok : (search body g).1 =
      SearchResponse.ok rs (body.searchType.getD "") (body.searchValue.getD ""))
    (hmem : r ∈ rs) :
    r.resourceId = body.searchValue.getD "" ∧
    mappedOriginSystem (body.searchType.getD "") = some r.resourceType ∧
    (∀ st sv, isMatch st sv none = false) := by
  have h1 := search_ok body g pkgs hbody hc
  have h2 : SearchResponse.ok rs (body.searchType.getD "") (body.searchValue.getD "") =
      SearchResponse.ok
        (pkgs.flatMap
          (pkgContrib g (body.searchType.getD "") (body.searchValue.getD "")))
        (body.searchType.getD "") (body.searchValue.getD "") := by
    rw [← hok, h1]
  injection h2 with hrs _ _
  subst hrs
  obtain ⟨pkg, hpkg, hr⟩ := List.mem_flatMap.mp hmem
  have hnull : ∀ st sv, isMatch st sv none = false := by
    intro st sv
    unfold isMatch
    split_ifs <;> rfl
  cases hpd : g.packageDetails pkg.id with
  | error e => simp [pkgContrib, hpd] at hr
  | ok pd =>
      simp only [pkgContrib, hpd] at hr
      obtain ⟨rsc, -, hrec⟩ := processPackage_mem _ _ pd r hr
      obtain ⟨s, -, hm, hid, htype⟩ := scopeRecord_spec _ _ pd rsc r hrec
      obtain ⟨h4, h5⟩ := isMatch_some_origin _ _ s hm
      exact ⟨by rw [hid, h4], by rw [htype]; exact h5, hnull⟩

/-- Witness for C10: the single record of the fixture group search carries
`resourceId` `g1` and `resourceType` `AadGroup`. -/
theorem search_output_invariant_witness :
    salesRecord.resourceId = groupSearchBody.searchValue.getD "" ∧
    mappedOriginSystem (groupSearchBody.searchType.getD "") =
      some salesRecord.resourceType ∧
    (∀ st sv, isMatch st sv none = false) :=
  search_output_invariant groupSearchBody gFail [pkg1Summary, pkg2Summary]
    [salesRecord] salesRecord (by decide) rfl (by decide) (by decide)

end AccessPackageFinder
